import Mathlib

/-!
Shallow embedding of the NomiMoon credential-and-session core:
the User model (src/server/src/models/User.js), the ephemeral Token model
(src/server/src/models/Token.js), the JWT service
(src/server/src/services/jwtService.js), the auth service workflows
(src/server/src/services/authService.js) and the authenticate middleware
(second document of src/server/src/middleware/errorHandler.js).

Conventions: timestamps are Nat milliseconds since the epoch, except JWT
payload fields iat and exp which are whole seconds (as in the jsonwebtoken
library).  The Mongo collections are lists of documents; findOne is the
first list element matching the query.  bcrypt compare and sha256 are
passed in as abstract functions; crypto.randomBytes is modelled by passing
the fresh random value as an explicit argument.
-/

namespace NomiMoon

/-- Operational error from utils/AppError.js: a message plus an HTTP status
code.  badRequest, unauthorized, conflict, notFound are the factory helpers
of that file. -/
structure AppError where
  message : String
  statusCode : Nat
deriving Repr, DecidableEq

def badRequest (m : String) : AppError := ⟨m, 400⟩

def unauthorized (m : String) : AppError := ⟨m, 401⟩

def conflict (m : String) : AppError := ⟨m, 409⟩

def notFound (m : String) : AppError := ⟨m, 404⟩

/-- A User document (models/User.js schema).  `uid` is the Mongo _id,
`password` holds the bcrypt hash as stored. -/
structure UserDoc where
  uid : String
  email : String
  password : String
  firstName : Option String
  lastName : Option String
  isEmailVerified : Bool
  emailVerifiedAt : Option Nat
  passwordChangedAt : Option Nat
  lastLoginAt : Option Nat
  loginAttempts : Nat
  lockUntil : Option Nat
  isActive : Bool
deriving Repr, DecidableEq

/-- models/User.js incLoginAttempts: MAX_LOGIN_ATTEMPTS = 5. -/
def MAX_LOGIN_ATTEMPTS : Nat := 5

/-- models/User.js incLoginAttempts: LOCK_TIME = 2 * 60 * 60 * 1000 ms. -/
def LOCK_TIME : Nat := 2 * 60 * 60 * 1000

/-- userSchema.methods.isLocked: lockUntil is set and strictly after now. -/
def UserDoc.isLocked (u : UserDoc) (now : Nat) : Bool :=
  match u.lockUntil with
  | some l => decide (now < l)
  | none => false

/-- userSchema.methods.changedPasswordAfter: when passwordChangedAt is set,
compare the JWT issued-at (seconds) with passwordChangedAt truncated to
whole seconds; otherwise the password was never changed. -/
def UserDoc.changedPasswordAfter (u : UserDoc) (jwtTimestamp : Nat) : Bool :=
  match u.passwordChangedAt with
  | some pca => decide (jwtTimestamp < pca / 1000)
  | none => false

/-- userSchema.methods.comparePassword, with bcrypt.compare abstracted as
`bcmp candidate storedHash`. -/
def UserDoc.comparePassword (bcmp : String → String → Bool) (u : UserDoc)
    (candidate : String) : Bool :=
  bcmp candidate u.password

/-- The `$inc`/`$set` update built in the tail of incLoginAttempts: bump the
counter, and set the lock when the bumped counter reaches the threshold and
the account is not already locked. -/
def UserDoc.incLoginAttemptsCore (u : UserDoc) (now : Nat) : UserDoc :=
  let bumped := { u with loginAttempts := u.loginAttempts + 1 }
  if MAX_LOGIN_ATTEMPTS ≤ u.loginAttempts + 1 ∧ u.isLocked now = false then
    { bumped with lockUntil := some (now + LOCK_TIME) }
  else
    bumped

/-- userSchema.methods.incLoginAttempts: when a previous lock has expired
(lockUntil set and strictly before now) reset the counter to 1 and clear
the lock; otherwise increment and conditionally lock. -/
def UserDoc.incLoginAttempts (u : UserDoc) (now : Nat) : UserDoc :=
  match u.lockUntil with
  | some l =>
    if l < now then
      { u with loginAttempts := 1, lockUntil := none }
    else
      u.incLoginAttemptsCore now
  | none => u.incLoginAttemptsCore now

/-- userSchema.methods.resetLoginAttempts: zero the counter, stamp
lastLoginAt, unset lockUntil. -/
def UserDoc.resetLoginAttempts (u : UserDoc) (now : Nat) : UserDoc :=
  { u with loginAttempts := 0, lastLoginAt := some now, lockUntil := none }

/-- userSchema.pre save hook: when the password field was modified, store
its bcrypt hash, and when additionally the document is not new, stamp
passwordChangedAt = Date.now() - 1000.  Nothing happens when the password
was not modified. -/
def preSave (bhash : String → String) (u : UserDoc)
    (passwordModified isNew : Bool) (now : Nat) : UserDoc :=
  if passwordModified = false then
    u
  else
    let hashed := { u with password := bhash u.password }
    if isNew then hashed
    else { hashed with passwordChangedAt := some (now - 1000) }

/-- The users collection. -/
abbrev UserStore := List UserDoc

/-- JavaScript email.toLowerCase(), written structurally so that it
evaluates inside the kernel. -/
def toLowerStr (s : String) : String := ⟨s.data.map Char.toLower⟩

/-- User.findByEmail: findOne on the lowercased email; the pre-find query
hook additionally excludes isActive = false documents. -/
def findByEmail (s : UserStore) (email : String) : Option UserDoc :=
  s.find? (fun u => u.email == toLowerStr email && u.isActive)

/-- User.findByEmailWithPassword: same query with select +password (the
select difference is immaterial in the model, every field is present). -/
def findByEmailWithPassword (s : UserStore) (email : String) : Option UserDoc :=
  s.find? (fun u => u.email == toLowerStr email && u.isActive)

/-- User.findById, with the pre-find hook excluding inactive documents. -/
def findById (s : UserStore) (uid : String) : Option UserDoc :=
  s.find? (fun u => u.uid == uid && u.isActive)

/-- Persisting a mutated document (user.save() / user.updateOne): replace
the document with the same _id. -/
def updateUser (s : UserStore) (u : UserDoc) : UserStore :=
  s.map (fun v => if v.uid = u.uid then u else v)

/-- JWT configuration from config/env.js: distinct access and refresh
secrets and their lifetimes (converted to seconds). -/
structure JwtConfig where
  secret : String
  refreshSecret : String
  expiresInSec : Nat
  refreshExpiresInSec : Nat
deriving Repr, DecidableEq

/-- The claims this service signs: subject id, type, issued-at, expiry
(whole seconds). -/
structure JwtPayload where
  id : String
  type : String
  iat : Nat
  exp : Nat
deriving Repr, DecidableEq

/-- A signed token as the jsonwebtoken black box produces it: the payload
plus the signing key the signature binds to and the issuer/audience
claims.  A signature verifies under a key exactly when `signedWith` equals
that key. -/
structure SignedJwt where
  payload : JwtPayload
  signedWith : String
  issuer : String
  audience : String
deriving Repr, DecidableEq

def ISSUER : String := "your-app-name"

def AUDIENCE : String := "your-app-users"

/-- jwtService.generateAccessToken: type access, signed with the access
secret, expiring accessTtl after issue. -/
def generateAccessToken (cfg : JwtConfig) (userId : String) (nowSec : Nat) : SignedJwt :=
  { payload := { id := userId, type := "access", iat := nowSec, exp := nowSec + cfg.expiresInSec },
    signedWith := cfg.secret, issuer := ISSUER, audience := AUDIENCE }

/-- jwtService.generateRefreshToken: type refresh, signed with the refresh
secret. -/
def generateRefreshToken (cfg : JwtConfig) (userId : String) (nowSec : Nat) : SignedJwt :=
  { payload := { id := userId, type := "refresh", iat := nowSec, exp := nowSec + cfg.refreshExpiresInSec },
    signedWith := cfg.refreshSecret, issuer := ISSUER, audience := AUDIENCE }

/-- jwtService.generateTokens: an access and a refresh token for the same
subject. -/
structure AuthTokens where
  accessToken : SignedJwt
  refreshToken : SignedJwt
deriving Repr, DecidableEq

def generateTokens (cfg : JwtConfig) (userId : String) (nowSec : Nat) : AuthTokens :=
  { accessToken := generateAccessToken cfg userId nowSec,
    refreshToken := generateRefreshToken cfg userId nowSec }

/-- The error taxonomy jwt.verify surfaces: TokenExpiredError vs
JsonWebTokenError (bad signature, bad audience, bad issuer). -/
inductive JwtError where
  | tokenExpired
  | jsonWebTokenError
deriving Repr, DecidableEq

/-- jwt.verify(token, secret, issuer/audience): signature first, then
expiry, then audience and issuer, as the jsonwebtoken library orders its
checks.  A token is expired once now has reached exp. -/
def jwtVerify (t : SignedJwt) (secret iss aud : String) (nowSec : Nat) :
    Except JwtError JwtPayload :=
  if t.signedWith ≠ secret then .error .jsonWebTokenError
  else if t.payload.exp ≤ nowSec then .error .tokenExpired
  else if t.audience ≠ aud then .error .jsonWebTokenError
  else if t.issuer ≠ iss then .error .jsonWebTokenError
  else .ok t.payload

/-- jwtService.verifyAccessToken: verify under the access secret with the
fixed issuer and audience, then require the claimed type to be access;
library failures are mapped to Unauthorized errors. -/
def verifyAccessToken (cfg : JwtConfig) (t : SignedJwt) (nowSec : Nat) :
    Except AppError JwtPayload :=
  match jwtVerify t cfg.secret ISSUER AUDIENCE nowSec with
  | .ok decoded =>
    if decoded.type ≠ "access" then .error (unauthorized "Invalid token type")
    else .ok decoded
  | .error .tokenExpired => .error (unauthorized "Token has expired. Please log in again.")
  | .error .jsonWebTokenError => .error (unauthorized "Invalid token. Please log in again.")

/-- jwtService.verifyRefreshToken: verify under the refresh secret, then
require the claimed type to be refresh. -/
def verifyRefreshToken (cfg : JwtConfig) (t : SignedJwt) (nowSec : Nat) :
    Except AppError JwtPayload :=
  match jwtVerify t cfg.refreshSecret ISSUER AUDIENCE nowSec with
  | .ok decoded =>
    if decoded.type ≠ "refresh" then .error (unauthorized "Invalid token type")
    else .ok decoded
  | .error .tokenExpired => .error (unauthorized "Refresh token has expired. Please log in again.")
  | .error .jsonWebTokenError => .error (unauthorized "Invalid refresh token. Please log in again.")

/-- An ephemeral token document (models/Token.js schema).  `tid` is the
Mongo _id, `token` holds the sha256 hash of the plaintext secret. -/
structure TokenDoc where
  tid : Nat
  userId : String
  token : String
  type : String
  expiresAt : Nat
deriving Repr, DecidableEq

/-- The tokens collection. -/
abbrev TokenStore := List TokenDoc

namespace Token

/-- deleteMany with query userId and type, as generateToken issues it. -/
def deleteManyUserType (s : TokenStore) (userId ty : String) : TokenStore :=
  s.filter (fun t => !(t.userId == userId && t.type == ty))

/-- findOne with query token (hashed) and type. -/
def findOne (s : TokenStore) (hashed ty : String) : Option TokenDoc :=
  s.find? (fun t => t.token == hashed && t.type == ty)

/-- deleteOne by _id. -/
def deleteOne (s : TokenStore) (tid : Nat) : TokenStore :=
  s.filter (fun t => t.tid != tid)

/-- Token.generateToken: delete all existing tokens of this type for this
user, hash the fresh random secret, store the hash with the expiry, and
hand back the plaintext secret and its hash.  `randomToken` stands for the
crypto.randomBytes output and `freshId` for the created document's _id. -/
def generateToken (s : TokenStore) (sha256 : String → String) (userId ty : String)
    (expiresInMs now : Nat) (randomToken : String) (freshId : Nat) :
    String × String × TokenStore :=
  let cleared := deleteManyUserType s userId ty
  let hashedToken := sha256 randomToken
  let expiresAt := now + expiresInMs
  (randomToken, hashedToken,
    cleared ++ [{ tid := freshId, userId := userId, token := hashedToken,
                  type := ty, expiresAt := expiresAt }])

/-- Token.verifyToken: hash the supplied secret, look up by hash and type;
absent gives null; an expired match is deleted and gives null; a live
match is deleted (single use) and gives its userId. -/
def verifyToken (s : TokenStore) (sha256 : String → String) (token ty : String)
    (now : Nat) : Option String × TokenStore :=
  let hashedToken := sha256 token
  match findOne s hashedToken ty with
  | none => (none, s)
  | some tokenDoc =>
    if tokenDoc.expiresAt < now then
      (none, deleteOne s tokenDoc.tid)
    else
      (some tokenDoc.userId, deleteOne s tokenDoc.tid)

/-- Token.deleteUserTokens: delete all of a user's tokens, optionally
restricted to one type. -/
def deleteUserTokens (s : TokenStore) (userId : String) (ty : Option String) : TokenStore :=
  s.filter (fun t =>
    !(t.userId == userId && (match ty with | none => true | some k => t.type == k)))

/-- Token.hasValidToken: some token of this user and type has expiresAt
strictly after now. -/
def hasValidToken (s : TokenStore) (userId ty : String) (now : Nat) : Bool :=
  (s.find? (fun t => t.userId == userId && t.type == ty && decide (now < t.expiresAt))).isSome

end Token

/-- The user summary the login and verification responses carry. -/
structure UserSummary where
  id : String
  email : String
  firstName : Option String
  lastName : Option String
  isEmailVerified : Bool
deriving Repr, DecidableEq

/-- The success payload of authService.login. -/
structure LoginOk where
  message : String
  accessToken : SignedJwt
  refreshToken : SignedJwt
  user : UserSummary
deriving Repr, DecidableEq

/-- authService.login: find the user (with password) by email; reject when
absent, unverified or locked; on a wrong password increment the attempt
counter and reject; on a correct password reset the counter and mint the
token pair.  The returned store is the users collection after the call. -/
def login (s : UserStore) (bcmp : String → String → Bool) (cfg : JwtConfig)
    (email password : String) (now : Nat) : Except AppError LoginOk × UserStore :=
  match findByEmailWithPassword s email with
  | none => (.error (unauthorized "Invalid email or password"), s)
  | some user =>
    if user.isEmailVerified = false then
      (.error (unauthorized "Please verify your email before logging in. Check your inbox for the verification link."), s)
    else if user.isLocked now then
      (.error (unauthorized "Your account has been locked due to too many failed login attempts. Please try again later or reset your password."), s)
    else if user.comparePassword bcmp password then
      let tokens := generateTokens cfg user.uid (now / 1000)
      (.ok { message := "Login successful",
             accessToken := tokens.accessToken, refreshToken := tokens.refreshToken,
             user := { id := user.uid, email := user.email, firstName := user.firstName,
                       lastName := user.lastName, isEmailVerified := user.isEmailVerified } },
       updateUser s (user.resetLoginAttempts now))
    else
      (.error (unauthorized "Invalid email or password"),
       updateUser s (user.incLoginAttempts now))

/-- The authenticate middleware (second document of
middleware/errorHandler.js): extract the bearer token (none models a
missing or malformed header), verify it as an access token, require the
subject to still exist, require the password unchanged since issue,
require the email verified, and hand back the user summary. -/
def authenticate (s : UserStore) (cfg : JwtConfig) (token : Option SignedJwt)
    (now : Nat) : Except AppError UserSummary :=
  match token with
  | none => .error (unauthorized "You are not logged in. Please log in to access this resource.")
  | some t =>
    match verifyAccessToken cfg t (now / 1000) with
    | .error e => .error e
    | .ok decoded =>
      match findById s decoded.id with
      | none => .error (unauthorized "The user belonging to this token no longer exists. Please log in again.")
      | some user =>
        if user.changedPasswordAfter decoded.iat then
          .error (unauthorized "You recently changed your password. Please log in again.")
        else if user.isEmailVerified = false then
          .error (unauthorized "Please verify your email before accessing this resource.")
        else
          .ok { id := user.uid, email := user.email, firstName := user.firstName,
                lastName := user.lastName, isEmailVerified := user.isEmailVerified }

/-- The success payload of authService.verifyEmail. -/
structure VerifyEmailOk where
  message : String
  accessToken : SignedJwt
  refreshToken : SignedJwt
  user : UserSummary
deriving Repr, DecidableEq

/-- authService.verifyEmail: consume the email-verification token (which
deletes it whenever it is found, expired or not), then look the user up,
reject an absent user with notFound and an already verified user with
badRequest, otherwise mark verified and mint the token pair.  The result
carries the users collection and the tokens collection after the call. -/
def verifyEmail (us : UserStore) (ts : TokenStore) (sha256 : String → String)
    (cfg : JwtConfig) (token : String) (now : Nat) :
    Except AppError VerifyEmailOk × UserStore × TokenStore :=
  let consumed := Token.verifyToken ts sha256 token "email-verification" now
  match consumed.1 with
  | none =>
    (.error (badRequest "Invalid or expired verification link. Please request a new verification email."),
     us, consumed.2)
  | some userId =>
    match findById us userId with
    | none => (.error (notFound "User not found"), us, consumed.2)
    | some user =>
      if user.isEmailVerified then
        (.error (badRequest "Email is already verified. You can log in now."), us, consumed.2)
      else
        let user2 := { user with isEmailVerified := true, emailVerifiedAt := some now }
        let tokens := generateTokens cfg user2.uid (now / 1000)
        (.ok { message := "Email verified successfully! Welcome aboard!",
               accessToken := tokens.accessToken, refreshToken := tokens.refreshToken,
               user := { id := user2.uid, email := user2.email, firstName := user2.firstName,
                         lastName := user2.lastName, isEmailVerified := user2.isEmailVerified } },
         updateUser us user2, consumed.2)

/-- A generic status-plus-message response body. -/
structure GenericResp where
  status : String
  message : String
deriving Repr, DecidableEq

/-- authService.forgotPassword: an unknown email gets the generic success
response untouched; a known user with a still-valid reset token gets the
rate-limit badRequest; otherwise a reset token is issued (1 hour) and the
reset email sent, a send failure surfacing as badRequest and a successful
send returning the same generic success response.  `sendOk` models the
outcome of the sendPasswordResetEmail collaborator. -/
def forgotPassword (us : UserStore) (ts : TokenStore) (sha256 : String → String)
    (email : String) (now : Nat) (randomToken : String) (freshId : Nat)
    (sendOk : Bool) : Except AppError GenericResp × TokenStore :=
  match findByEmail us email with
  | none =>
    (.ok { status := "success",
           message := "If your email is registered, you will receive a password reset link." }, ts)
  | some user =>
    if Token.hasValidToken ts user.uid "password-reset" now then
      (.error (badRequest "A password reset email was recently sent. Please check your inbox or spam folder. Wait a few minutes before requesting another."), ts)
    else
      let issued := Token.generateToken ts sha256 user.uid "password-reset"
        (60 * 60 * 1000) now randomToken freshId
      if sendOk then
        (.ok { status := "success",
               message := "If your email is registered, you will receive a password reset link." },
         issued.2.2)
      else
        (.error (badRequest "Failed to send password reset email. Please try again later."),
         issued.2.2)

/-- A sequence of login attempts with one credential pair at the given
times, threading the users collection. -/
def loginRun (bcmp : String → String → Bool) (cfg : JwtConfig)
    (email password : String) : List Nat → UserStore → UserStore
  | [], s => s
  | t :: ts, s => loginRun bcmp cfg email password ts (login s bcmp cfg email password t).2

/-! Helper lemmas shared by the claim theorems. -/

theorem updateUser_map_uid (s : UserStore) (u' : UserDoc) :
    (updateUser s u').map UserDoc.uid = s.map UserDoc.uid := by
  unfold updateUser
  rw [List.map_map]
  apply List.map_congr_left
  intro v _
  by_cases h : v.uid = u'.uid <;> simp [Function.comp, h]

theorem find?_updateUser (s : UserStore) (p : UserDoc → Bool) (u u' : UserDoc)
    (hn : (s.map UserDoc.uid).Nodup)
    (hf : s.find? p = some u)
    (hid : u'.uid = u.uid) (hp : p u' = true) :
    (updateUser s u').find? p = some u' := by
  induction s with
  | nil => simp [List.find?] at hf
  | cons v t ih =>
    rw [List.map_cons, List.nodup_cons] at hn
    by_cases hv : p v
    · rw [List.find?_cons_of_pos _ hv] at hf
      have hvu : v = u := by injection hf
      subst hvu
      have hcond : v.uid = u'.uid := hid.symm
      unfold updateUser
      simp only [List.map_cons, if_pos hcond]
      exact List.find?_cons_of_pos _ hp
    · rw [List.find?_cons_of_neg _ hv] at hf
      have hu_mem : u ∈ t := List.mem_of_find?_eq_some hf
      have hvne : v.uid ≠ u'.uid := by
        rw [hid]
        intro h
        exact hn.1 (h ▸ List.mem_map_of_mem UserDoc.uid hu_mem)
      unfold updateUser
      simp only [List.map_cons, if_neg hvne]
      rw [List.find?_cons_of_neg _ hv]
      exact ih hn.2 hf

theorem findByEmailWithPassword_updateUser (s : UserStore) (email : String)
    (u u' : UserDoc)
    (hn : (s.map UserDoc.uid).Nodup)
    (hf : findByEmailWithPassword s email = some u)
    (hid : u'.uid = u.uid) (he : u'.email = u.email) (ha : u'.isActive = u.isActive) :
    findByEmailWithPassword (updateUser s u') email = some u' := by
  have hp := List.find?_some hf
  simp only [Bool.and_eq_true, beq_iff_eq] at hp
  apply find?_updateUser s _ u u' hn hf hid
  simp only [Bool.and_eq_true, beq_iff_eq]
  exact ⟨he.trans hp.1, ha.trans hp.2⟩

theorem isLocked_of_none (u : UserDoc) (now : Nat) (h : u.lockUntil = none) :
    u.isLocked now = false := by
  unfold UserDoc.isLocked
  rw [h]

theorem isLocked_of_future (u : UserDoc) (now l : Nat) (h : u.lockUntil = some l)
    (hfut : now < l) : u.isLocked now = true := by
  unfold UserDoc.isLocked
  rw [h]
  simpa using hfut

theorem login_locked_eq (s : UserStore) (bcmp : String → String → Bool)
    (cfg : JwtConfig) (email password : String) (now : Nat) (u : UserDoc) (l : Nat)
    (hf : findByEmailWithPassword s email = some u)
    (hv : u.isEmailVerified = true)
    (hl : u.lockUntil = some l) (hfut : now < l) :
    login s bcmp cfg email password now =
      (.error (unauthorized "Your account has been locked due to too many failed login attempts. Please try again later or reset your password."), s) := by
  unfold login
  rw [hf]
  simp [hv, isLocked_of_future u now l hl hfut]

theorem login_wrong_password_eq (s : UserStore) (bcmp : String → String → Bool)
    (cfg : JwtConfig) (email password : String) (now : Nat) (u : UserDoc)
    (hf : findByEmailWithPassword s email = some u)
    (hv : u.isEmailVerified = true)
    (hl : u.isLocked now = false)
    (hw : bcmp password u.password = false) :
    login s bcmp cfg email password now =
      (.error (unauthorized "Invalid email or password"),
       updateUser s (u.incLoginAttempts now)) := by
  unfold login
  rw [hf]
  simp [hv, hl, UserDoc.comparePassword, hw]

theorem incLoginAttempts_below (u : UserDoc) (now : Nat)
    (hl : u.lockUntil = none) (hlt : u.loginAttempts + 1 < MAX_LOGIN_ATTEMPTS) :
    u.incLoginAttempts now = { u with loginAttempts := u.loginAttempts + 1 } := by
  have hc : ¬(MAX_LOGIN_ATTEMPTS ≤ u.loginAttempts + 1 ∧ u.isLocked now = false) := by
    intro h
    exact absurd h.1 (by omega)
  simp [UserDoc.incLoginAttempts, UserDoc.incLoginAttemptsCore, hl, hc]

theorem incLoginAttempts_reaches (u : UserDoc) (now : Nat)
    (hl : u.lockUntil = none) (hge : MAX_LOGIN_ATTEMPTS ≤ u.loginAttempts + 1) :
    u.incLoginAttempts now =
      { u with loginAttempts := u.loginAttempts + 1,
               lockUntil := some (now + LOCK_TIME) } := by
  have hc := isLocked_of_none u now hl
  simp [UserDoc.incLoginAttempts, UserDoc.incLoginAttemptsCore, hl, hc, hge]

/-! Concrete sample data used by the witness theorems. -/

def sampleCfg : JwtConfig :=
  { secret := "access-secret", refreshSecret := "refresh-secret",
    expiresInSec := 604800, refreshExpiresInSec := 2592000 }

def eqCompare : String → String → Bool := fun candidate stored => candidate == stored

def idHash : String → String := fun s => s

def sampleUser : UserDoc :=
  { uid := "u1", email := "a@x.com", password := "hashed-pw", firstName := none,
    lastName := none, isEmailVerified := true, emailVerifiedAt := some 0,
    passwordChangedAt := none, lastLoginAt := none, loginAttempts := 0,
    lockUntil := none, isActive := true }

def samplePcaUser : UserDoc := { sampleUser with passwordChangedAt := some 20000 }

def sampleLockedUser : UserDoc := { sampleUser with lockUntil := some 100 }

/-! The claim theorems. -/

/-- Claim C7: a login attempt on a user whose lockUntil is set and strictly
in the future is rejected as Unauthorized with the locked message for any
supplied password, and the users collection is returned unchanged, so
loginAttempts and lockUntil are untouched (the lock check runs before the
password check). -/
theorem locked_login_rejected_state_unchanged (s : UserStore)
    (bcmp : String → String → Bool) (cfg : JwtConfig) (email password : String)
    (now : Nat) (u : UserDoc) (l : Nat)
    (hf : findByEmailWithPassword s email = some u)
    (hv : u.isEmailVerified = true)
    (hl : u.lockUntil = some l) (hfut : now < l) :
    login s bcmp cfg email password now =
      (.error (unauthorized "Your account has been locked due to too many failed login attempts. Please try again later or reset your password."), s) :=
  login_locked_eq s bcmp cfg email password now u l hf hv hl hfut

/-- Witness for C7 at a concrete locked user and a correct password. -/
theorem locked_login_rejected_state_unchanged_witness :
    login [sampleLockedUser] eqCompare sampleCfg "a@x.com" "hashed-pw" 50 =
      (.error (unauthorized "Your account has been locked due to too many failed login attempts. Please try again later or reset your password."),
       [sampleLockedUser]) :=
  locked_login_rejected_state_unchanged [sampleLockedUser] eqCompare sampleCfg
    "a@x.com" "hashed-pw" 50 sampleLockedUser 100 (by decide) rfl rfl (by decide)

/-- Claim C1: on a verified access token whose subject exists and has
passwordChangedAt set, the authenticate middleware rejects with
Unauthorized exactly when the token's issued-at (whole seconds) is
strictly before passwordChangedAt truncated to whole seconds; when the
issued-at is at or after it, the changed-password check passes and that
rejection cannot occur. -/
theorem passwordChange_invalidates_earlier_tokens (s : UserStore)
    (cfg : JwtConfig) (t : SignedJwt) (now : Nat) (d : JwtPayload)
    (user : UserDoc) (pca : Nat)
    (hver : verifyAccessToken cfg t (now / 1000) = .ok d)
    (hfind : findById s d.id = some user)
    (hpca : user.passwordChangedAt = some pca) :
    (d.iat < pca / 1000 →
      authenticate s cfg (some t) now =
        .error (unauthorized "You recently changed your password. Please log in again."))
    ∧ (pca / 1000 ≤ d.iat →
      user.changedPasswordAfter d.iat = false ∧
      authenticate s cfg (some t) now ≠
        .error (unauthorized "You recently changed your password. Please log in again.")) := by
  constructor
  · intro hlt
    have hcp : user.changedPasswordAfter d.iat = true := by
      unfold UserDoc.changedPasswordAfter
      rw [hpca]
      simpa using hlt
    unfold authenticate
    simp [hver, hfind, hcp]
  · intro hge
    have hcp : user.changedPasswordAfter d.iat = false := by
      unfold UserDoc.changedPasswordAfter
      rw [hpca]
      simpa using hge
    refine ⟨hcp, ?_⟩
    unfold authenticate
    simp only [hver, hfind, hcp, Bool.false_eq_true, if_false]
    by_cases hv : user.isEmailVerified = false
    · rw [if_pos hv]
      intro h
      simp [unauthorized] at h
    · rw [if_neg hv]
      intro h
      simp at h

/-- Witness for C1: a token issued at second 10 against a password change
stamped at millisecond 20000 (second 20) is rejected; the at-or-after
direction holds vacuously at this input. -/
theorem passwordChange_invalidates_earlier_tokens_witness :
    (10 < 20000 / 1000 →
      authenticate [samplePcaUser] sampleCfg
          (some (generateAccessToken sampleCfg "u1" 10)) 0 =
        .error (unauthorized "You recently changed your password. Please log in again."))
    ∧ (20000 / 1000 ≤ 10 →
      samplePcaUser.changedPasswordAfter 10 = false ∧
      authenticate [samplePcaUser] sampleCfg
          (some (generateAccessToken sampleCfg "u1" 10)) 0 ≠
        .error (unauthorized "You recently changed your password. Please log in again.")) :=
  passwordChange_invalidates_earlier_tokens [samplePcaUser] sampleCfg
    (generateAccessToken sampleCfg "u1" 10) 0
    (generateAccessToken sampleCfg "u1" 10).payload samplePcaUser 20000
    rfl rfl rfl

/-- Claim C10: when an existing document's password is modified, the save
hook stamps passwordChangedAt to the save time minus exactly 1000 ms; a
newly created document never gets the stamp; and a token whose issue time
is at or after the save time passes changedPasswordAfter (whole-second
comparison). -/
theorem passwordChangedAt_backdated_one_second (bhash : String → String)
    (u : UserDoc) (saveMs issueMs : Nat) (hle : saveMs ≤ issueMs) :
    (preSave bhash u true false saveMs).passwordChangedAt = some (saveMs - 1000)
    ∧ (∀ pm : Bool, ∀ now : Nat,
        (preSave bhash u pm true now).passwordChangedAt = u.passwordChangedAt)
    ∧ (preSave bhash u true false saveMs).changedPasswordAfter (issueMs / 1000) = false := by
  refine ⟨rfl, ?_, ?_⟩
  · intro pm now
    cases pm <;> rfl
  · have h1 : (saveMs - 1000) / 1000 ≤ issueMs / 1000 :=
      Nat.div_le_div_right (le_trans (Nat.sub_le _ _) hle)
    show (decide (issueMs / 1000 < (saveMs - 1000) / 1000)) = false
    simpa using h1

/-- Witness for C10 with save time 5000 ms and issue time 6000 ms. -/
theorem passwordChangedAt_backdated_one_second_witness :
    (preSave idHash sampleUser true false 5000).passwordChangedAt = some (5000 - 1000)
    ∧ (∀ pm : Bool, ∀ now : Nat,
        (preSave idHash sampleUser pm true now).passwordChangedAt = sampleUser.passwordChangedAt)
    ∧ (preSave idHash sampleUser true false 5000).changedPasswordAfter (6000 / 1000) = false :=
  passwordChangedAt_backdated_one_second idHash sampleUser 5000 6000 (by decide)

def sampleResetDoc : TokenDoc :=
  { tid := 1, userId := "u1", token := "old", type := "password-reset", expiresAt := 100 }

def sampleVerifyDoc : TokenDoc :=
  { tid := 1, userId := "ghost", token := "sec", type := "email-verification", expiresAt := 100 }

/-- Claim C4: Token.generateToken deletes every token of the same kind for
the same user before inserting the new record, so afterwards the only
token of that kind for that user is the newly issued one, and a previously
issued secret of that kind (whose hash differs from the new secret's hash)
fails to consume. -/
theorem generateToken_invalidates_prior_tokens (ts : TokenStore)
    (sha256 : String → String) (userId ty : String) (expiresInMs now : Nat)
    (randomToken : String) (freshId : Nat) (oldSecret : String) (consumeNow : Nat)
    (hneq : sha256 oldSecret ≠ sha256 randomToken)
    (hold : ∀ r ∈ ts, r.token = sha256 oldSecret → r.type = ty → r.userId = userId) :
    (∀ r ∈ (Token.generateToken ts sha256 userId ty expiresInMs now randomToken freshId).2.2,
      r.userId = userId → r.type = ty →
      r = { tid := freshId, userId := userId, token := sha256 randomToken,
            type := ty, expiresAt := now + expiresInMs })
    ∧ (Token.verifyToken
        (Token.generateToken ts sha256 userId ty expiresInMs now randomToken freshId).2.2
        sha256 oldSecret ty consumeNow).1 = none := by
  have hstore : (Token.generateToken ts sha256 userId ty expiresInMs now randomToken freshId).2.2
      = Token.deleteManyUserType ts userId ty ++
        [{ tid := freshId, userId := userId, token := sha256 randomToken,
           type := ty, expiresAt := now + expiresInMs }] := rfl
  constructor
  · intro r hr hru hrt
    rw [hstore] at hr
    rcases List.mem_append.mp hr with hr | hr
    · have hkeep := List.of_mem_filter hr
      simp [hru, hrt] at hkeep
    · simpa using hr
  · have hfind : Token.findOne
        (Token.generateToken ts sha256 userId ty expiresInMs now randomToken freshId).2.2
        (sha256 oldSecret) ty = none := by
      unfold Token.findOne
      rw [List.find?_eq_none]
      intro r hr hp
      simp only [Bool.and_eq_true, beq_iff_eq] at hp
      obtain ⟨htok, hty2⟩ := hp
      rw [hstore] at hr
      rcases List.mem_append.mp hr with hr | hr
      · have hru := hold r (List.mem_of_mem_filter hr) htok hty2
        have hkeep := List.of_mem_filter hr
        simp [hru, hty2] at hkeep
      · have hrnew : r = { tid := freshId, userId := userId, token := sha256 randomToken,
                           type := ty, expiresAt := now + expiresInMs } := by simpa using hr
        rw [hrnew] at htok
        exact hneq htok.symm
    simp only [Token.verifyToken, hfind]

/-- Witness for C4: reissuing the password-reset token for user u1
invalidates the earlier secret. -/
theorem generateToken_invalidates_prior_tokens_witness :
    (∀ r ∈ (Token.generateToken [sampleResetDoc] idHash "u1" "password-reset" 3600000 10 "new" 2).2.2,
      r.userId = "u1" → r.type = "password-reset" →
      r = { tid := 2, userId := "u1", token := idHash "new",
            type := "password-reset", expiresAt := 10 + 3600000 })
    ∧ (Token.verifyToken
        (Token.generateToken [sampleResetDoc] idHash "u1" "password-reset" 3600000 10 "new" 2).2.2
        idHash "old" "password-reset" 20).1 = none :=
  generateToken_invalidates_prior_tokens [sampleResetDoc] idHash "u1" "password-reset"
    3600000 10 "new" 2 "old" 20 (by decide) (by decide)

/-- Claim C5: consume is single-use: with a stored live record matching an
issued secret (the only record with that hash and kind), the first consume
returns the owning userId and deletes the record, and a second consume of
the same secret and kind finds nothing. -/
theorem verifyToken_single_use (ts : TokenStore) (sha256 : String → String)
    (secret ty : String) (now now2 : Nat) (tdoc : TokenDoc)
    (hmem : tdoc ∈ ts) (htok : tdoc.token = sha256 secret) (hty : tdoc.type = ty)
    (huniq : ∀ r ∈ ts, r.token = sha256 secret → r.type = ty → r = tdoc)
    (hunexp : ¬ tdoc.expiresAt < now) :
    Token.verifyToken ts sha256 secret ty now = (some tdoc.userId, Token.deleteOne ts tdoc.tid)
    ∧ tdoc ∉ Token.deleteOne ts tdoc.tid
    ∧ (Token.verifyToken (Token.deleteOne ts tdoc.tid) sha256 secret ty now2).1 = none := by
  have hfind : Token.findOne ts (sha256 secret) ty = some tdoc := by
    unfold Token.findOne
    have hsome : (ts.find? (fun t => t.token == sha256 secret && t.type == ty)).isSome :=
      List.find?_isSome.mpr ⟨tdoc, hmem, by simp [htok, hty]⟩
    obtain ⟨r0, hr0⟩ := Option.isSome_iff_exists.mp hsome
    have hp0 := List.find?_some hr0
    simp only [Bool.and_eq_true, beq_iff_eq] at hp0
    rw [hr0, huniq r0 (List.mem_of_find?_eq_some hr0) hp0.1 hp0.2]
  refine ⟨?_, ?_, ?_⟩
  · simp only [Token.verifyToken, hfind]
    rw [if_neg hunexp]
  · intro hmem2
    have := List.of_mem_filter hmem2
    simp at this
  · have hfind2 : Token.findOne (Token.deleteOne ts tdoc.tid) (sha256 secret) ty = none := by
      unfold Token.findOne
      rw [List.find?_eq_none]
      intro r hr hp
      simp only [Bool.and_eq_true, beq_iff_eq] at hp
      have hrt : r = tdoc := huniq r (List.mem_of_mem_filter hr) hp.1 hp.2
      have hkeep := List.of_mem_filter hr
      rw [hrt] at hkeep
      simp at hkeep
    simp only [Token.verifyToken, hfind2]

/-- Witness for C5: consuming the sample reset secret twice. -/
theorem verifyToken_single_use_witness :
    Token.verifyToken [sampleResetDoc] idHash "old" "password-reset" 50 =
      (some sampleResetDoc.userId, Token.deleteOne [sampleResetDoc] sampleResetDoc.tid)
    ∧ sampleResetDoc ∉ Token.deleteOne [sampleResetDoc] sampleResetDoc.tid
    ∧ (Token.verifyToken (Token.deleteOne [sampleResetDoc] sampleResetDoc.tid)
        idHash "old" "password-reset" 60).1 = none :=
  verifyToken_single_use [sampleResetDoc] idHash "old" "password-reset" 50 60
    sampleResetDoc (by decide) rfl rfl (by decide) (by decide)

/-- Claim C6: consuming a stored token whose expiresAt is strictly in the
past deletes the record and returns not-found, and consuming a token that
is absent from the store also returns not-found, so the two outcomes are
the same to the caller. -/
theorem expired_token_indistinguishable_from_absent (ts : TokenStore)
    (sha256 : String → String) (token ty : String) (now : Nat) :
    (∀ tdoc : TokenDoc, Token.findOne ts (sha256 token) ty = some tdoc →
      tdoc.expiresAt < now →
      Token.verifyToken ts sha256 token ty now = (none, Token.deleteOne ts tdoc.tid)
      ∧ tdoc ∉ Token.deleteOne ts tdoc.tid)
    ∧ (Token.findOne ts (sha256 token) ty = none →
      Token.verifyToken ts sha256 token ty now = (none, ts)) := by
  constructor
  · intro tdoc hfind hexp
    constructor
    · simp only [Token.verifyToken, hfind]
      rw [if_pos hexp]
    · intro hmem2
      have := List.of_mem_filter hmem2
      simp at this
  · intro hnone
    simp only [Token.verifyToken, hnone]

/-- Claim C9: with a live stored email-verification token, verifyEmail
consumes (deletes) the token before the user checks, so when the call then
fails with notFound (user missing) or badRequest (already verified) the
returned token store still has the record deleted. -/
theorem verifyEmail_consumes_token_on_error (us : UserStore) (ts : TokenStore)
    (sha256 : String → String) (cfg : JwtConfig) (token : String) (now : Nat)
    (tdoc : TokenDoc)
    (hfind : Token.findOne ts (sha256 token) "email-verification" = some tdoc)
    (hunexp : ¬ tdoc.expiresAt < now) :
    (findById us tdoc.userId = none →
      verifyEmail us ts sha256 cfg token now =
        (.error (notFound "User not found"), us, Token.deleteOne ts tdoc.tid))
    ∧ (∀ user, findById us tdoc.userId = some user → user.isEmailVerified = true →
      verifyEmail us ts sha256 cfg token now =
        (.error (badRequest "Email is already verified. You can log in now."), us,
         Token.deleteOne ts tdoc.tid))
    ∧ tdoc ∉ Token.deleteOne ts tdoc.tid := by
  have hcons : Token.verifyToken ts sha256 token "email-verification" now =
      (some tdoc.userId, Token.deleteOne ts tdoc.tid) := by
    simp only [Token.verifyToken, hfind]
    rw [if_neg hunexp]
  refine ⟨?_, ?_, ?_⟩
  · intro hu
    simp only [verifyEmail, hcons, hu]
  · intro user hu hv
    simp only [verifyEmail, hcons, hu]
    simp [hv]
  · intro hmem2
    have := List.of_mem_filter hmem2
    simp at this

/-- Witness for C9: a live verification token whose owner is absent from
the user store. -/
theorem verifyEmail_consumes_token_on_error_witness :
    (findById [] sampleVerifyDoc.userId = none →
      verifyEmail [] [sampleVerifyDoc] idHash sampleCfg "sec" 50 =
        (.error (notFound "User not found"), [],
         Token.deleteOne [sampleVerifyDoc] sampleVerifyDoc.tid))
    ∧ (∀ user, findById [] sampleVerifyDoc.userId = some user → user.isEmailVerified = true →
      verifyEmail [] [sampleVerifyDoc] idHash sampleCfg "sec" 50 =
        (.error (badRequest "Email is already verified. You can log in now."), [],
         Token.deleteOne [sampleVerifyDoc] sampleVerifyDoc.tid))
    ∧ sampleVerifyDoc ∉ Token.deleteOne [sampleVerifyDoc] sampleVerifyDoc.tid :=
  verifyEmail_consumes_token_on_error [] [sampleVerifyDoc] idHash sampleCfg "sec" 50
    sampleVerifyDoc rfl (by decide)

theorem jwtVerify_ok_iff (t : SignedJwt) (secret iss aud : String) (nowSec : Nat)
    (d : JwtPayload) :
    jwtVerify t secret iss aud nowSec = .ok d ↔
      (t.signedWith = secret ∧ nowSec < t.payload.exp ∧ t.audience = aud ∧
       t.issuer = iss ∧ d = t.payload) := by
  unfold jwtVerify
  split_ifs with h1 h2 h3 h4
  · simp [h1]
  · have hn : ¬ nowSec < t.payload.exp := Nat.not_lt.mpr h2
    simp [hn]
  · simp [h3]
  · simp [h4]
  · rw [not_not] at h1 h3 h4
    rw [Nat.not_le] at h2
    simp [h1, h2, h3, h4, eq_comm]

theorem verifyAccessToken_ok_iff (cfg : JwtConfig) (t : SignedJwt) (nowSec : Nat)
    (d : JwtPayload) :
    verifyAccessToken cfg t nowSec = .ok d ↔
      (t.signedWith = cfg.secret ∧ nowSec < t.payload.exp ∧ t.audience = AUDIENCE ∧
       t.issuer = ISSUER ∧ t.payload.type = "access" ∧ d = t.payload) := by
  unfold verifyAccessToken
  cases hjv : jwtVerify t cfg.secret ISSUER AUDIENCE nowSec with
  | ok dec =>
    have hc := (jwtVerify_ok_iff t cfg.secret ISSUER AUDIENCE nowSec dec).mp hjv
    obtain ⟨hs, he, ha, hi, hdp⟩ := hc
    subst hdp
    by_cases ht : t.payload.type ≠ "access"
    · simp [ht, hs, he, ha, hi]
    · rw [not_not] at ht
      simp [ht, hs, he, ha, hi, eq_comm]
  | error je =>
    have hne : ∀ d2, ¬ (jwtVerify t cfg.secret ISSUER AUDIENCE nowSec = .ok d2) := by
      intro d2 hok
      rw [hjv] at hok
      cases hok
    have hcond := fun hc : t.signedWith = cfg.secret ∧ nowSec < t.payload.exp ∧
        t.audience = AUDIENCE ∧ t.issuer = ISSUER ∧ t.payload.type = "access" ∧
        d = t.payload =>
      hne t.payload ((jwtVerify_ok_iff t cfg.secret ISSUER AUDIENCE nowSec t.payload).mpr
        ⟨hc.1, hc.2.1, hc.2.2.1, hc.2.2.2.1, rfl⟩)
    cases je <;> simp only [] <;>
      exact ⟨fun h => absurd h (by simp), fun hc => absurd hc hcond⟩

theorem verifyRefreshToken_ok_iff (cfg : JwtConfig) (t : SignedJwt) (nowSec : Nat)
    (d : JwtPayload) :
    verifyRefreshToken cfg t nowSec = .ok d ↔
      (t.signedWith = cfg.refreshSecret ∧ nowSec < t.payload.exp ∧ t.audience = AUDIENCE ∧
       t.issuer = ISSUER ∧ t.payload.type = "refresh" ∧ d = t.payload) := by
  unfold verifyRefreshToken
  cases hjv : jwtVerify t cfg.refreshSecret ISSUER AUDIENCE nowSec with
  | ok dec =>
    have hc := (jwtVerify_ok_iff t cfg.refreshSecret ISSUER AUDIENCE nowSec dec).mp hjv
    obtain ⟨hs, he, ha, hi, hdp⟩ := hc
    subst hdp
    by_cases ht : t.payload.type ≠ "refresh"
    · simp [ht, hs, he, ha, hi]
    · rw [not_not] at ht
      simp [ht, hs, he, ha, hi, eq_comm]
  | error je =>
    have hne : ∀ d2, ¬ (jwtVerify t cfg.refreshSecret ISSUER AUDIENCE nowSec = .ok d2) := by
      intro d2 hok
      rw [hjv] at hok
      cases hok
    have hcond := fun hc : t.signedWith = cfg.refreshSecret ∧ nowSec < t.payload.exp ∧
        t.audience = AUDIENCE ∧ t.issuer = ISSUER ∧ t.payload.type = "refresh" ∧
        d = t.payload =>
      hne t.payload ((jwtVerify_ok_iff t cfg.refreshSecret ISSUER AUDIENCE nowSec t.payload).mpr
        ⟨hc.1, hc.2.1, hc.2.2.1, hc.2.2.2.1, rfl⟩)
    cases je <;> simp only [] <;>
      exact ⟨fun h => absurd h (by simp), fun hc => absurd hc hcond⟩

theorem verifyAccessToken_error_code (cfg : JwtConfig) (t : SignedJwt) (nowSec : Nat)
    (e : AppError) (h : verifyAccessToken cfg t nowSec = .error e) : e.statusCode = 401 := by
  unfold verifyAccessToken at h
  cases hjv : jwtVerify t cfg.secret ISSUER AUDIENCE nowSec with
  | ok dec =>
    simp only [hjv] at h
    by_cases ht : dec.type ≠ "access"
    · rw [if_pos ht] at h
      injection h with h2
      exact h2 ▸ rfl
    · rw [if_neg ht] at h
      cases h
  | error je =>
    cases je <;> simp only [hjv] at h <;> (injection h with h2; exact h2 ▸ rfl)

theorem verifyRefreshToken_error_code (cfg : JwtConfig) (t : SignedJwt) (nowSec : Nat)
    (e : AppError) (h : verifyRefreshToken cfg t nowSec = .error e) : e.statusCode = 401 := by
  unfold verifyRefreshToken at h
  cases hjv : jwtVerify t cfg.refreshSecret ISSUER AUDIENCE nowSec with
  | ok dec =>
    simp only [hjv] at h
    by_cases ht : dec.type ≠ "refresh"
    · rw [if_pos ht] at h
      injection h with h2
      exact h2 ▸ rfl
    · rw [if_neg ht] at h
      cases h
  | error je =>
    cases je <;> simp only [hjv] at h <;> (injection h with h2; exact h2 ▸ rfl)

/-- Claim C8: verifyAccessToken succeeds exactly on a token signed with the
access secret, unexpired, with matching issuer and audience, and claimed
type access (returning the token's payload); verifyRefreshToken is the
symmetric statement under the refresh secret and type refresh; every
failure of either is an Unauthorized-class (401) error; and a minted
refresh token is never accepted by verifyAccessToken nor a minted access
token by verifyRefreshToken. -/
theorem token_type_confusion_rejected (cfg : JwtConfig) (t : SignedJwt) (nowSec : Nat) :
    (verifyAccessToken cfg t nowSec = .ok t.payload ↔
      (t.signedWith = cfg.secret ∧ nowSec < t.payload.exp ∧ t.audience = AUDIENCE ∧
       t.issuer = ISSUER ∧ t.payload.type = "access"))
    ∧ (∀ d, verifyAccessToken cfg t nowSec = .ok d → d = t.payload)
    ∧ (∀ e, verifyAccessToken cfg t nowSec = .error e → e.statusCode = 401)
    ∧ (verifyRefreshToken cfg t nowSec = .ok t.payload ↔
      (t.signedWith = cfg.refreshSecret ∧ nowSec < t.payload.exp ∧ t.audience = AUDIENCE ∧
       t.issuer = ISSUER ∧ t.payload.type = "refresh"))
    ∧ (∀ d, verifyRefreshToken cfg t nowSec = .ok d → d = t.payload)
    ∧ (∀ e, verifyRefreshToken cfg t nowSec = .error e → e.statusCode = 401)
    ∧ (∀ uid : String, ∀ t0 : Nat, ∃ e,
        verifyAccessToken cfg (generateRefreshToken cfg uid t0) nowSec = .error e
        ∧ e.statusCode = 401)
    ∧ (∀ uid : String, ∀ t0 : Nat, ∃ e,
        verifyRefreshToken cfg (generateAccessToken cfg uid t0) nowSec = .error e
        ∧ e.statusCode = 401) := by
  refine ⟨?_, ?_, ?_, ?_, ?_, ?_, ?_, ?_⟩
  · rw [verifyAccessToken_ok_iff]
    simp
  · intro d hd
    exact ((verifyAccessToken_ok_iff cfg t nowSec d).mp hd).2.2.2.2.2
  · exact fun e => verifyAccessToken_error_code cfg t nowSec e
  · rw [verifyRefreshToken_ok_iff]
    simp
  · intro d hd
    exact ((verifyRefreshToken_ok_iff cfg t nowSec d).mp hd).2.2.2.2.2
  · exact fun e => verifyRefreshToken_error_code cfg t nowSec e
  · intro uid t0
    cases hv : verifyAccessToken cfg (generateRefreshToken cfg uid t0) nowSec with
    | error e => exact ⟨e, rfl, verifyAccessToken_error_code cfg _ nowSec e hv⟩
    | ok d =>
      exfalso
      have hc := (verifyAccessToken_ok_iff cfg _ nowSec d).mp hv
      have ht : ("refresh" : String) = "access" := hc.2.2.2.2.1
      simp at ht
  · intro uid t0
    cases hv : verifyRefreshToken cfg (generateAccessToken cfg uid t0) nowSec with
    | error e => exact ⟨e, rfl, verifyRefreshToken_error_code cfg _ nowSec e hv⟩
    | ok d =>
      exfalso
      have hc := (verifyRefreshToken_ok_iff cfg _ nowSec d).mp hv
      have ht : ("access" : String) = "refresh" := hc.2.2.2.2.1
      simp at ht

/-- Claim C3: forgotPassword returns the same success response for an
unregistered email as for a registered email (whose user has no
still-valid reset token and whose reset email sends), so the two success
responses are byte-identical and the caller cannot tell whether the email
is registered. -/
theorem forgotPassword_responses_indistinguishable (us : UserStore) (ts : TokenStore)
    (sha256 : String → String) (now : Nat) (randomToken : String) (freshId : Nat)
    (e1 e2 : String) (u : UserDoc)
    (h1 : findByEmail us e1 = none)
    (h2 : findByEmail us e2 = some u)
    (hno : Token.hasValidToken ts u.uid "password-reset" now = false) :
    (forgotPassword us ts sha256 e1 now randomToken freshId true).1 =
      .ok { status := "success",
            message := "If your email is registered, you will receive a password reset link." }
    ∧ (forgotPassword us ts sha256 e2 now randomToken freshId true).1 =
      .ok { status := "success",
            message := "If your email is registered, you will receive a password reset link." } := by
  constructor
  · simp only [forgotPassword, h1]
  · simp only [forgotPassword, h2]
    simp [hno]

/-- Witness for C3: an unregistered and a registered email against the
same store. -/
theorem forgotPassword_responses_indistinguishable_witness :
    (forgotPassword [sampleUser] [] idHash "b@x.com" 10 "fresh" 7 true).1 =
      .ok { status := "success",
            message := "If your email is registered, you will receive a password reset link." }
    ∧ (forgotPassword [sampleUser] [] idHash "a@x.com" 10 "fresh" 7 true).1 =
      .ok { status := "success",
            message := "If your email is registered, you will receive a password reset link." } :=
  forgotPassword_responses_indistinguishable [sampleUser] [] idHash 10 "fresh" 7
    "b@x.com" "a@x.com" sampleUser (by decide) (by decide) rfl

/-- Counterexample to C2 as stated: for a registered, verified, unlocked
user with loginAttempts = 0, the fifth consecutive failed attempt answers
with the generic invalid-credentials Unauthorized message, which differs
from the Unauthorized-locked message that the sixth attempt receives
during the lock window. -/
theorem fifth_attempt_locked_message_cex :
    (login (loginRun eqCompare sampleCfg "a@x.com" "wrong" [1, 2, 3, 4] [sampleUser])
        eqCompare sampleCfg "a@x.com" "wrong" 5).1 =
      .error (unauthorized "Invalid email or password")
    ∧ (login (loginRun eqCompare sampleCfg "a@x.com" "wrong" [1, 2, 3, 4, 5] [sampleUser])
        eqCompare sampleCfg "a@x.com" "wrong" 6).1 =
      .error (unauthorized "Your account has been locked due to too many failed login attempts. Please try again later or reset your password.")
    ∧ ("Invalid email or password" : String) ≠
      "Your account has been locked due to too many failed login attempts. Please try again later or reset your password." :=
  ⟨rfl, rfl, by decide⟩

/-- Claim C2 (amended): for a registered, verified, unlocked, active user
with loginAttempts = 0, exactly five consecutive failed password attempts
leave loginAttempts = 5 and set lockUntil to the fifth attempt's time plus
the default 2-hour lock duration; the fifth attempt's own response is the
generic invalid-credentials Unauthorized message, while attempts during
the lock window (here a sixth attempt before expiry) get the distinct
Unauthorized-locked message with the store unchanged. -/
theorem five_failed_attempts_lock (s : UserStore) (bcmp : String → String → Bool)
    (cfg : JwtConfig) (email pw : String) (u : UserDoc)
    (t1 t2 t3 t4 t5 t6 : Nat)
    (hn : (s.map UserDoc.uid).Nodup)
    (hf : findByEmailWithPassword s email = some u)
    (hv : u.isEmailVerified = true)
    (ha : u.loginAttempts = 0)
    (hl : u.lockUntil = none)
    (hw : bcmp pw u.password = false)
    (h6 : t6 < t5 + LOCK_TIME) :
    (login (loginRun bcmp cfg email pw [t1, t2, t3, t4] s) bcmp cfg email pw t5).1 =
      .error (unauthorized "Invalid email or password")
    ∧ findByEmailWithPassword (loginRun bcmp cfg email pw [t1, t2, t3, t4, t5] s) email =
      some { u with loginAttempts := 5, lockUntil := some (t5 + LOCK_TIME) }
    ∧ login (loginRun bcmp cfg email pw [t1, t2, t3, t4, t5] s) bcmp cfg email pw t6 =
      (.error (unauthorized "Your account has been locked due to too many failed login attempts. Please try again later or reset your password."),
       loginRun bcmp cfg email pw [t1, t2, t3, t4, t5] s) := by
  -- attempt 1
  have hinc1 : u.incLoginAttempts t1 = { u with loginAttempts := 1 } := by
    rw [incLoginAttempts_below u t1 hl (by rw [ha]; decide)]
    simp [ha]
  have hstep1 := login_wrong_password_eq s bcmp cfg email pw t1 u hf hv
    (isLocked_of_none u t1 hl) hw
  have hrs1 : (login s bcmp cfg email pw t1).2 =
      updateUser s { u with loginAttempts := 1 } := by
    rw [hstep1, hinc1]
  have hf1 : findByEmailWithPassword (updateUser s { u with loginAttempts := 1 }) email =
      some ({ u with loginAttempts := 1 } : UserDoc) :=
    findByEmailWithPassword_updateUser s email u _ hn hf rfl rfl rfl
  have hn1 : ((updateUser s { u with loginAttempts := 1 }).map UserDoc.uid).Nodup := by
    rw [updateUser_map_uid]
    exact hn
  -- attempt 2
  have hinc2 : ({ u with loginAttempts := 1 } : UserDoc).incLoginAttempts t2 =
      { u with loginAttempts := 2 } := by
    rw [incLoginAttempts_below { u with loginAttempts := 1 } t2 hl
      (by show (1 : Nat) + 1 < MAX_LOGIN_ATTEMPTS; decide)]
  have hstep2 := login_wrong_password_eq (updateUser s { u with loginAttempts := 1 })
    bcmp cfg email pw t2 { u with loginAttempts := 1 } hf1 hv
    (isLocked_of_none _ t2 hl) hw
  have hrs2 : (login (updateUser s { u with loginAttempts := 1 }) bcmp cfg email pw t2).2 =
      updateUser (updateUser s { u with loginAttempts := 1 }) { u with loginAttempts := 2 } := by
    rw [hstep2, hinc2]
  have hf2 : findByEmailWithPassword
      (updateUser (updateUser s { u with loginAttempts := 1 }) { u with loginAttempts := 2 })
      email = some ({ u with loginAttempts := 2 } : UserDoc) :=
    findByEmailWithPassword_updateUser _ email { u with loginAttempts := 1 } _ hn1 hf1 rfl rfl rfl
  have hn2 : (((updateUser (updateUser s { u with loginAttempts := 1 })
      { u with loginAttempts := 2 })).map UserDoc.uid).Nodup := by
    rw [updateUser_map_uid]
    exact hn1
  -- attempt 3
  have hinc3 : ({ u with loginAttempts := 2 } : UserDoc).incLoginAttempts t3 =
      { u with loginAttempts := 3 } := by
    rw [incLoginAttempts_below { u with loginAttempts := 2 } t3 hl
      (by show (2 : Nat) + 1 < MAX_LOGIN_ATTEMPTS; decide)]
  have hstep3 := login_wrong_password_eq
    (updateUser (updateUser s { u with loginAttempts := 1 }) { u with loginAttempts := 2 })
    bcmp cfg email pw t3 { u with loginAttempts := 2 } hf2 hv
    (isLocked_of_none _ t3 hl) hw
  have hrs3 : (login (updateUser (updateUser s { u with loginAttempts := 1 })
      { u with loginAttempts := 2 }) bcmp cfg email pw t3).2 =
      updateUser (updateUser (updateUser s { u with loginAttempts := 1 })
        { u with loginAttempts := 2 }) { u with loginAttempts := 3 } := by
    rw [hstep3, hinc3]
  have hf3 : findByEmailWithPassword
      (updateUser (updateUser (updateUser s { u with loginAttempts := 1 })
        { u with loginAttempts := 2 }) { u with loginAttempts := 3 })
      email = some ({ u with loginAttempts := 3 } : UserDoc) :=
    findByEmailWithPassword_updateUser _ email { u with loginAttempts := 2 } _ hn2 hf2 rfl rfl rfl
  have hn3 : ((updateUser (updateUser (updateUser s { u with loginAttempts := 1 })
      { u with loginAttempts := 2 }) { u with loginAttempts := 3 }).map UserDoc.uid).Nodup := by
    rw [updateUser_map_uid]
    exact hn2
  -- attempt 4
  have hinc4 : ({ u with loginAttempts := 3 } : UserDoc).incLoginAttempts t4 =
      { u with loginAttempts := 4 } := by
    rw [incLoginAttempts_below { u with loginAttempts := 3 } t4 hl
      (by show (3 : Nat) + 1 < MAX_LOGIN_ATTEMPTS; decide)]
  have hstep4 := login_wrong_password_eq
    (updateUser (updateUser (updateUser s { u with loginAttempts := 1 })
      { u with loginAttempts := 2 }) { u with loginAttempts := 3 })
    bcmp cfg email pw t4 { u with loginAttempts := 3 } hf3 hv
    (isLocked_of_none _ t4 hl) hw
  have hrs4 : (login (updateUser (updateUser (updateUser s { u with loginAttempts := 1 })
      { u with loginAttempts := 2 }) { u with loginAttempts := 3 }) bcmp cfg email pw t4).2 =
      updateUser (updateUser (updateUser (updateUser s { u with loginAttempts := 1 })
        { u with loginAttempts := 2 }) { u with loginAttempts := 3 })
        { u with loginAttempts := 4 } := by
    rw [hstep4, hinc4]
  have hf4 : findByEmailWithPassword
      (updateUser (updateUser (updateUser (updateUser s { u with loginAttempts := 1 })
        { u with loginAttempts := 2 }) { u with loginAttempts := 3 })
        { u with loginAttempts := 4 })
      email = some ({ u with loginAttempts := 4 } : UserDoc) :=
    findByEmailWithPassword_updateUser _ email { u with loginAttempts := 3 } _ hn3 hf3 rfl rfl rfl
  have hn4 : ((updateUser (updateUser (updateUser (updateUser s { u with loginAttempts := 1 })
      { u with loginAttempts := 2 }) { u with loginAttempts := 3 })
      { u with loginAttempts := 4 }).map UserDoc.uid).Nodup := by
    rw [updateUser_map_uid]
    exact hn3
  -- attempt 5 trips the lock
  have hinc5 : ({ u with loginAttempts := 4 } : UserDoc).incLoginAttempts t5 =
      { u with loginAttempts := 5, lockUntil := some (t5 + LOCK_TIME) } := by
    rw [incLoginAttempts_reaches { u with loginAttempts := 4 } t5 hl
      (by show MAX_LOGIN_ATTEMPTS ≤ (4 : Nat) + 1; decide)]
  have hstep5 := login_wrong_password_eq
    (updateUser (updateUser (updateUser (updateUser s { u with loginAttempts := 1 })
      { u with loginAttempts := 2 }) { u with loginAttempts := 3 })
      { u with loginAttempts := 4 })
    bcmp cfg email pw t5 { u with loginAttempts := 4 } hf4 hv
    (isLocked_of_none _ t5 hl) hw
  have hrs5 : (login (updateUser (updateUser (updateUser (updateUser s
      { u with loginAttempts := 1 }) { u with loginAttempts := 2 })
      { u with loginAttempts := 3 }) { u with loginAttempts := 4 })
      bcmp cfg email pw t5).2 =
      updateUser (updateUser (updateUser (updateUser (updateUser s
        { u with loginAttempts := 1 }) { u with loginAttempts := 2 })
        { u with loginAttempts := 3 }) { u with loginAttempts := 4 })
        { u with loginAttempts := 5, lockUntil := some (t5 + LOCK_TIME) } := by
    rw [hstep5, hinc5]
  have hf5 : findByEmailWithPassword
      (updateUser (updateUser (updateUser (updateUser (updateUser s
        { u with loginAttempts := 1 }) { u with loginAttempts := 2 })
        { u with loginAttempts := 3 }) { u with loginAttempts := 4 })
        { u with loginAttempts := 5, lockUntil := some (t5 + LOCK_TIME) })
      email = some ({ u with loginAttempts := 5, lockUntil := some (t5 + LOCK_TIME) } : UserDoc) :=
    findByEmailWithPassword_updateUser _ email { u with loginAttempts := 4 } _ hn4 hf4 rfl rfl rfl
  -- the sixth attempt is rejected by the lock and changes nothing
  have hlock6 := login_locked_eq
    (updateUser (updateUser (updateUser (updateUser (updateUser s
      { u with loginAttempts := 1 }) { u with loginAttempts := 2 })
      { u with loginAttempts := 3 }) { u with loginAttempts := 4 })
      { u with loginAttempts := 5, lockUntil := some (t5 + LOCK_TIME) })
    bcmp cfg email pw t6 { u with loginAttempts := 5, lockUntil := some (t5 + LOCK_TIME) }
    (t5 + LOCK_TIME) hf5 hv rfl h6
  refine ⟨?_, ?_, ?_⟩
  · simp only [loginRun]
    rw [hrs1, hrs2, hrs3, hrs4, hstep5]
  · simp only [loginRun]
    rw [hrs1, hrs2, hrs3, hrs4, hrs5]
    exact hf5
  · simp only [loginRun]
    rw [hrs1, hrs2, hrs3, hrs4, hrs5]
    exact hlock6

/-- Witness for the amended C2 at a concrete user and times 1..6. -/
theorem five_failed_attempts_lock_witness :
    (login (loginRun eqCompare sampleCfg "a@x.com" "wrong" [1, 2, 3, 4] [sampleUser])
        eqCompare sampleCfg "a@x.com" "wrong" 5).1 =
      .error (unauthorized "Invalid email or password")
    ∧ findByEmailWithPassword
        (loginRun eqCompare sampleCfg "a@x.com" "wrong" [1, 2, 3, 4, 5] [sampleUser])
        "a@x.com" =
      some { sampleUser with loginAttempts := 5, lockUntil := some (5 + LOCK_TIME) }
    ∧ login (loginRun eqCompare sampleCfg "a@x.com" "wrong" [1, 2, 3, 4, 5] [sampleUser])
        eqCompare sampleCfg "a@x.com" "wrong" 6 =
      (.error (unauthorized "Your account has been locked due to too many failed login attempts. Please try again later or reset your password."),
       loginRun eqCompare sampleCfg "a@x.com" "wrong" [1, 2, 3, 4, 5] [sampleUser]) :=
  five_failed_attempts_lock [sampleUser] eqCompare sampleCfg "a@x.com" "wrong"
    sampleUser 1 2 3 4 5 6 (by decide) (by decide) rfl rfl rfl (by decide) (by decide)

end NomiMoon
